import Mathlib

/-!
# Verification of the game-platform server

A shallow embedding of the platform server (`server/data.py`, `server/auth.py`,
`server/handlers.py`, `server/lobby_manager.py`, `server/game_manager.py`,
`utils/protocol.py`, `utils/file_transfer.py`) sufficient to settle the frozen
claims about its specification.

Conventions of the embedding:
* Python `dict` records become Lean structures (or association lists where the
  code manipulates a dict generically, e.g. tuple-unpacking of a dict).
* Python `list` is `List`; mutation becomes explicit state passing.
* Python `int` is `Int` where the value can be negative (`max_players`,
  `downloads`, ratings), `Nat` for lengths/ports/byte values.
* Fallible or exception-raising code returns `Option`/`Except` or an explicit
  outcome type.
* Nondeterministic inputs of the environment (uuid-generated ids, the SHA-256
  hash function, success of a subprocess launch) are explicit parameters.
-/

set_option maxRecDepth 10000

/-- Python truthiness of a string: nonempty strings are truthy. -/
def py_truthy (s : String) : Bool := s ≠ ""

/-- Python `str.strip()`: drop whitespace from both ends. -/
def py_strip (s : String) : String :=
  ⟨((s.data.dropWhile Char.isWhitespace).reverse.dropWhile Char.isWhitespace).reverse⟩

/-- Python `set(a) == set(b)` on two lists: each is contained in the other. -/
def py_set_eq (a b : List String) : Bool :=
  a.all (fun x => b.contains x) && b.all (fun x => a.contains x)

/-- A framed JSON response as produced by `send_ok` / `send_error` in
`utils/protocol.py`: a `status` field plus extra string fields. -/
structure Resp where
  status : String
  fields : List (String × String)
deriving Repr, DecidableEq

/-- `send_ok(sock, **extra)` from `utils/protocol.py`. -/
def send_ok (extra : List (String × String)) : Resp :=
  { status := "ok", fields := extra }

/-- `send_error(sock, message)` from `utils/protocol.py`. -/
def send_error (message : String) : Resp :=
  { status := "error", fields := [("message", message)] }

/-! ## Users table (`server/data.py`) -/

/-- A user record exactly as built by `DataStore.register_user`
(`server/data.py`): the `password` field stores the hash. -/
structure User where
  username : String
  password : String
  role : String
  owned_games : List String
  uploaded_games : List String
deriving Repr, DecidableEq

/-- `DataStore.register_user` (`server/data.py` lines 81-97): refuse when the
username exists, else append the new record. The SHA-256 hex digest
`_hash_password` is an explicit parameter `hash`. Returns the Python `bool`
together with the users table after the call. -/
def DataStore.register_user (hash : String → String) (users : List User)
    (username password role : String) : Bool × List User :=
  if users.any (fun u => u.username == username) then
    (false, users)
  else
    (true, users ++ [{ username := username, password := hash password,
                       role := role, owned_games := [], uploaded_games := [] }])

/-- `AuthManager.register` (`server/auth.py` lines 16-20). The returned Python
dict is embedded as an association list in insertion order, because the caller
in `handlers.py` manipulates it generically (tuple-unpacking). -/
def AuthManager.register (hash : String → String) (users : List User)
    (username password role : String) : List (String × String) × List User :=
  let r := DataStore.register_user hash users username password role
  if r.1 then
    ([("status", "ok"), ("message", "Registration successful")], r.2)
  else
    ([("status", "error"), ("message", "Username already exists")], r.2)

/-- `RequestHandlers._handle_register` (`server/handlers.py` lines 110-128).
The source does `ok, message = self.auth.register(...)` where
`auth.register` returns a *dict*; Python tuple-unpacking of a dict iterates
its keys, so `ok` and `message` are bound to the dict's keys (in insertion
order), and `if ok:` tests the truthiness of the first key. The embedding
reproduces that faithfully. -/
def RequestHandlers.handle_register (hash : String → String) (users : List User)
    (username password role : String) : Resp × List User :=
  let username := py_strip username
  if !(role == "player" || role == "developer") then
    (send_error "Invalid role", users)
  else if username == "" || password == "" then
    (send_error "Username and password required", users)
  else
    let r := AuthManager.register hash users username password role
    let keys := r.1.map Prod.fst
    let ok := keys.headD ""
    let message := (keys.drop 1).headD ""
    if py_truthy ok then
      (send_ok [("message", message)], r.2)
    else
      (send_error message, r.2)

/-- The record `register_user` stores for alice under the identity hash. -/
def alice_rec : User :=
  { username := "alice", password := "pw", role := "player",
    owned_games := [], uploaded_games := [] }

/-! ## Games table (`server/data.py`) -/

/-- One review entry, as appended by `DataStore.add_review`. -/
structure Review where
  username : String
  rating : Int
  comment : String
deriving Repr, DecidableEq

/-- A game record exactly as built by `DataStore.add_or_update_game`
(`server/data.py` lines 119-172). That function stores no `max_players` key,
so the record carries `max_players : Option Int := none`; a `some` value
models a record whose backing JSON happens to contain the key, and
`game.get("max_players", 2)` becomes `(·.getD 2)`. -/
structure Game where
  game_id : String
  name : String
  developer : String
  version : String
  description : String
  file_path : String
  cli_entry : String
  gui_entry : String
  downloads : Int
  reviews : List Review
  max_players : Option Int
deriving Repr, DecidableEq

/-- First game with the given id, as the `for`/`if` scans in `data.py`. -/
def DataStore.get_game (games : List Game) (game_id : String) : Option Game :=
  games.find? (fun g => g.game_id == game_id)

/-- The `uploaded_games` append inside `add_or_update_game`: the first user
record matching `developer` gets the id appended. -/
def add_uploaded_game (users : List User) (developer game_id : String) : List User :=
  match users with
  | [] => []
  | u :: rest =>
    if u.username == developer then
      { u with uploaded_games := u.uploaded_games ++ [game_id] } :: rest
    else
      u :: add_uploaded_game rest developer game_id

/-- `DataStore.add_or_update_game` (`server/data.py` lines 119-172). The
uuid4-generated id for the create path is the explicit parameter `new_id`.
Returns the resulting `game_id` and the new games/users tables. -/
def DataStore.add_or_update_game (games : List Game) (users : List User)
    (developer name version description file_path cli_entry gui_entry : String)
    (game_id : Option String) (new_id : String) :
    String × List Game × List User :=
  let found := game_id.bind (fun gid => DataStore.get_game games gid)
  match found with
  | none =>
    let g : Game :=
      { game_id := new_id, name := name, developer := developer,
        version := version, description := description, file_path := file_path,
        cli_entry := cli_entry, gui_entry := gui_entry, downloads := 0,
        reviews := [], max_players := none }
    (new_id, games ++ [g], add_uploaded_game users developer new_id)
  | some g =>
    let g' := { g with
      name := name, version := version, description := description,
      file_path := file_path, cli_entry := cli_entry, gui_entry := gui_entry }
    (g.game_id,
     games.map (fun x => if x.game_id == g.game_id then g' else x),
     users)

/-- The `owned_games` update inside `increment_download`: the first user
record matching `username` gets `game_id` appended unless already owned. -/
def add_owned_game (users : List User) (username game_id : String) : List User :=
  match users with
  | [] => []
  | u :: rest =>
    if u.username == username then
      (if u.owned_games.contains game_id then u
       else { u with owned_games := u.owned_games ++ [game_id] }) :: rest
    else
      u :: add_owned_game rest username game_id

/-- `DataStore.increment_download` (`server/data.py` lines 174-187): bump the
first matching game's `downloads` and add the id to the first matching user's
`owned_games` if absent. -/
def DataStore.increment_download (games : List Game) (users : List User)
    (username game_id : String) : List Game × List User :=
  let games' := match games.find? (fun g => g.game_id == game_id) with
    | none => games
    | some g =>
      games.map (fun x =>
        if x.game_id == g.game_id then { x with downloads := x.downloads + 1 } else x)
  (games', add_owned_game users username game_id)

/-! ## Rooms table (`server/data.py`) -/

/-- A room record exactly as built by `DataStore.create_room`
(`server/data.py` lines 245-270). -/
structure Room where
  room_id : String
  room_name : String
  host : String
  game_id : String
  players : List String
  ready_players : List String
  max_players : Int
  status : String
  game_port : Nat
deriving Repr, DecidableEq

/-- First room with the given id (`DataStore.get_room`). -/
def DataStore.get_room (rooms : List Room) (room_id : String) : Option Room :=
  rooms.find? (fun r => r.room_id == room_id)

/-- First room with the given host (`DataStore.get_room_by_host`). -/
def DataStore.get_room_by_host (rooms : List Room) (host : String) : Option Room :=
  rooms.find? (fun r => r.host == host)

/-- `DataStore.create_room` (`server/data.py` lines 245-270): append a fresh
room with the host as sole player, no ready players, status `"waiting"`. The
uuid-generated id is the explicit parameter `room_id`. -/
def DataStore.create_room (rooms : List Room)
    (room_id room_name host game_id : String) (max_players : Int)
    (game_port : Nat) : List Room :=
  rooms ++ [{ room_id := room_id, room_name := room_name, host := host,
              game_id := game_id, players := [host], ready_players := [],
              max_players := max_players, status := "waiting",
              game_port := game_port }]

/-- `DataStore.join_room` (`server/data.py` lines 272-284): on the first room
matching `room_id`, return `True` unchanged if already a member, `False`
unchanged if full, else append; `False` when no room matches. -/
def DataStore.join_room (rooms : List Room) (room_id username : String) :
    Bool × List Room :=
  match rooms with
  | [] => (false, [])
  | r :: rest =>
    if r.room_id == room_id then
      if r.players.contains username then (true, r :: rest)
      else if (r.players.length : Int) ≥ r.max_players then (false, r :: rest)
      else (true, { r with players := r.players ++ [username] } :: rest)
    else
      let t := DataStore.join_room rest room_id username
      (t.1, r :: t.2)

/-- `DataStore.leave_room` (`server/data.py` lines 286-302): on the first room
matching `room_id`, remove the first occurrence of `username` from `players`
and from `ready_players`, and destroy the room when `players` empties. -/
def DataStore.leave_room (rooms : List Room) (room_id username : String) :
    List Room :=
  match rooms with
  | [] => []
  | r :: rest =>
    if r.room_id == room_id then
      let players := r.players.erase username
      let ready := r.ready_players.erase username
      if players.isEmpty then rest
      else { r with players := players, ready_players := ready } :: rest
    else
      r :: DataStore.leave_room rest room_id username

/-- `DataStore.set_player_ready` (`server/data.py` lines 304-321): on the
first room matching `room_id`, refuse if `username` is not a player, else add
to / remove from `ready_players` (adding only when absent). -/
def DataStore.set_player_ready (rooms : List Room)
    (room_id username : String) (ready : Bool) : Bool × List Room :=
  match rooms with
  | [] => (false, [])
  | r :: rest =>
    if r.room_id == room_id then
      if !(r.players.contains username) then (false, r :: rest)
      else
        let ready_list :=
          if ready then
            (if r.ready_players.contains username then r.ready_players
             else r.ready_players ++ [username])
          else r.ready_players.erase username
        (true, { r with ready_players := ready_list } :: rest)
    else
      let t := DataStore.set_player_ready rest room_id username ready
      (t.1, r :: t.2)

/-- `DataStore.are_all_players_ready` (`server/data.py` lines 323-333):
`len(players) > 1 and set(players) == set(ready_players)` on the first
matching room, `False` when the room is absent. -/
def DataStore.are_all_players_ready (rooms : List Room) (room_id : String) :
    Bool :=
  match DataStore.get_room rooms room_id with
  | none => false
  | some r => decide (r.players.length > 1) && py_set_eq r.players r.ready_players

/-- `DataStore.delete_room` (`server/data.py` lines 335-343): remove the first
room matching `room_id`. -/
def DataStore.delete_room (rooms : List Room) (room_id : String) : List Room :=
  match rooms with
  | [] => []
  | r :: rest =>
    if r.room_id == room_id then rest
    else r :: DataStore.delete_room rest room_id

/-- `DataStore.update_room_status` (`server/data.py` lines 345-351): set the
first matching room's `status`. -/
def DataStore.update_room_status (rooms : List Room) (room_id status : String) :
    List Room :=
  match rooms with
  | [] => []
  | r :: rest =>
    if r.room_id == room_id then { r with status := status } :: rest
    else r :: DataStore.update_room_status rest room_id status

/-! ## Lobby manager (`server/lobby_manager.py`) -/

/-- `LobbyManager.create_room` (`server/lobby_manager.py` lines 25-54): when
the game exists and the requested `max_players` exceeds
`game.get("max_players", 2)`, answer an error without touching the rooms
table; otherwise create the room with the *requested* value. Returns the
response dict's payload as `Except` (error message, or `(room_id, game_port)`)
with the rooms table after the call. -/
def LobbyManager.create_room (games : List Game) (rooms : List Room)
    (host_username game_id room_name : String) (max_players : Int)
    (game_port : Nat) (new_room_id : String) :
    Except String (String × Nat) × List Room :=
  let reject : Bool :=
    match DataStore.get_game games game_id with
    | some game => decide (max_players > game.max_players.getD 2)
    | none => false
  if reject then
    let limit :=
      match DataStore.get_game games game_id with
      | some game => game.max_players.getD 2
      | none => 2
    (Except.error ("This game supports at most " ++ toString limit ++ " players"),
     rooms)
  else
    (Except.ok (new_room_id, game_port),
     DataStore.create_room rooms new_room_id room_name host_username game_id
       max_players game_port)

/-- `LobbyManager.join_room` (`server/lobby_manager.py` lines 56-65): room must
exist and be `"waiting"`; a full datastore `join_room` maps to the
`"Room is full"` error; on success the room is refetched as `room_info`. -/
def LobbyManager.join_room (rooms : List Room) (room_id username : String) :
    Except String (Option Room) × List Room :=
  match DataStore.get_room rooms room_id with
  | none => (Except.error "Room not found", rooms)
  | some room =>
    if room.status ≠ "waiting" then (Except.error "Room already started", rooms)
    else
      let t := DataStore.join_room rooms room_id username
      if !t.1 then (Except.error "Room is full", t.2)
      else (Except.ok (DataStore.get_room t.2 room_id), t.2)

/-- `LobbyManager.set_ready` (`server/lobby_manager.py` lines 71-83). -/
def LobbyManager.set_ready (rooms : List Room) (room_id username : String)
    (ready : Bool) : Except String Bool × List Room :=
  match DataStore.get_room rooms room_id with
  | none => (Except.error "Room not found", rooms)
  | some room =>
    if !(room.players.contains username) then
      (Except.error "You are not in this room", rooms)
    else if room.status ≠ "waiting" then
      (Except.error "Game already started", rooms)
    else
      let t := DataStore.set_player_ready rooms room_id username ready
      if t.1 then (Except.ok ready, t.2)
      else (Except.error "Failed to update ready status", t.2)

/-- `LobbyManager.start_game` (`server/lobby_manager.py` lines 104-141). The
success of `GameRuntime.start_game_server` is the explicit parameter
`launch_ok`; the tracked children set is not needed for the claims about this
function. Returns the response payload (`room_info` and port on success) with
the rooms table after the call. -/
def LobbyManager.start_game (games : List Game) (rooms : List Room)
    (room_id username : String) (launch_ok : Bool) :
    Except String (Option Room × Nat) × List Room :=
  match DataStore.get_room rooms room_id with
  | none => (Except.error "Room not found", rooms)
  | some room =>
    if room.status ≠ "waiting" then
      (Except.error "Game already started", rooms)
    else if room.host ≠ username then
      (Except.error "Only the host can start the game", rooms)
    else if room.players.length < 2 then
      (Except.error "Need at least 2 players to start", rooms)
    else if !(DataStore.are_all_players_ready rooms room_id) then
      let not_ready := room.players.filter (fun p => !(room.ready_players.contains p))
      (Except.error ("Not all players are ready. Waiting for: "
         ++ String.intercalate ", " not_ready), rooms)
    else
      match DataStore.get_game games room.game_id with
      | none => (Except.error "Game not found", rooms)
      | some _ =>
        if !launch_ok then (Except.error "Failed to launch game server", rooms)
        else
          let rooms' := DataStore.update_room_status rooms room_id "playing"
          (Except.ok (DataStore.get_room rooms' room_id, room.game_port), rooms')

/-- Outcome of a Python call that may raise instead of returning. -/
inductive PyOutcome (α : Type) where
  | ret (value : α)
  | raises (exc : String)
deriving Repr, DecidableEq

/-- `LobbyManager.end_game` (`server/lobby_manager.py` lines 143-166). After
the room and membership checks it terminates any tracked child and then calls
`self.datastore.reset_room_for_new_game(room_id)` — but `DataStore`
(`server/data.py`) defines no such method, so the attribute lookup raises
`AttributeError` and the room is never reset. `children` is the
`runtime.running_servers` key set. -/
def LobbyManager.end_game (rooms : List Room) (children : List String)
    (room_id username : String) :
    PyOutcome (Except String (Option Room)) × List Room × List String :=
  match DataStore.get_room rooms room_id with
  | none => (PyOutcome.ret (Except.error "Room not found"), rooms, children)
  | some room =>
    if !(room.players.contains username) then
      (PyOutcome.ret (Except.error "You are not in this room"), rooms, children)
    else
      let children' := children.erase room_id
      (PyOutcome.raises
        "AttributeError: 'DataStore' object has no attribute 'reset_room_for_new_game'",
       rooms, children')

/-! ## Dispatcher routing (`server/handlers.py` lines 27-99) -/

/-- The branch of `RequestHandlers.handle` a logged-in request reaches. -/
inductive Route where
  | list_games | upload_game_init | upload_game_chunk | submit_review
  | list_rooms | get_room_info | create_room | join_room | leave_room
  | set_ready | close_room | start_game | download_game | get_game_info
  | my_games | delete_game
  | unknown (action : String)
deriving Repr, DecidableEq

/-- The `elif` chain of `RequestHandlers.handle` (`server/handlers.py` lines
50-99) for a logged-in session with the given role, in source order. Any
action without a matching branch falls through to
`send_error("Unknown or unauthorized action: ...")`. -/
def RequestHandlers.route (action role : String) : Route :=
  if action == "list_games" then Route.list_games
  else if action == "upload_game_init" && role == "developer" then Route.upload_game_init
  else if action == "upload_game_chunk" && role == "developer" then Route.upload_game_chunk
  else if action == "submit_review" && role == "player" then Route.submit_review
  else if action == "list_rooms" then Route.list_rooms
  else if action == "get_room_info" then Route.get_room_info
  else if action == "create_room" && role == "player" then Route.create_room
  else if action == "join_room" && role == "player" then Route.join_room
  else if action == "leave_room" && role == "player" then Route.leave_room
  else if action == "set_ready" && role == "player" then Route.set_ready
  else if action == "close_room" && role == "player" then Route.close_room
  else if action == "start_game" && role == "player" then Route.start_game
  else if action == "download_game" && role == "player" then Route.download_game
  else if action == "get_game_info" then Route.get_game_info
  else if action == "my_games" && role == "developer" then Route.my_games
  else if action == "delete_game" && role == "developer" then Route.delete_game
  else Route.unknown action

/-- The response `handle` sends when no branch matches. -/
def unknown_action_resp (action : String) : Resp :=
  send_error ("Unknown or unauthorized action: " ++ action)

/-! ## Base64 chunk helpers (`utils/file_transfer.py`)

`encode_chunk` / `decode_chunk` wrap the standard library's
`base64.b64encode` / `base64.b64decode`, i.e. RFC 4648 standard base64 with
`=` padding. Bytes and ASCII characters are `Nat` values below 256; byte 61
is `'='`. -/

/-- The standard base64 alphabet: sextet index to ASCII code. -/
def b64_char_of_sextet (s : Nat) : Nat :=
  if s < 26 then 65 + s
  else if s < 52 then 97 + (s - 26)
  else if s < 62 then 48 + (s - 52)
  else if s = 62 then 43
  else 47

/-- Inverse alphabet lookup: ASCII code to sextet, `none` off-alphabet. -/
def b64_sextet_of_char (c : Nat) : Option Nat :=
  if 65 ≤ c && c ≤ 90 then some (c - 65)
  else if 97 ≤ c && c ≤ 122 then some (26 + (c - 97))
  else if 48 ≤ c && c ≤ 57 then some (52 + (c - 48))
  else if c == 43 then some 62
  else if c == 47 then some 63
  else none

/-- `encode_chunk` (`utils/file_transfer.py` lines 6-8): standard base64 over
a byte list, three input bytes per four output characters, `=`-padded. -/
def encode_chunk : List Nat → List Nat
  | [] => []
  | [a] => [b64_char_of_sextet (a / 4), b64_char_of_sextet (a % 4 * 16), 61, 61]
  | [a, b] => [b64_char_of_sextet (a / 4), b64_char_of_sextet (a % 4 * 16 + b / 16),
               b64_char_of_sextet (b % 16 * 4), 61]
  | a :: b :: c :: rest =>
    b64_char_of_sextet (a / 4) :: b64_char_of_sextet (a % 4 * 16 + b / 16)
      :: b64_char_of_sextet (b % 16 * 4 + c / 64) :: b64_char_of_sextet (c % 64)
      :: encode_chunk rest

/-- `decode_chunk` (`utils/file_transfer.py` lines 11-15): standard base64
decoding, four characters per group, `=` padding only at the very end;
malformed input is `none` (the Python call raises `binascii.Error`). -/
def decode_chunk : List Nat → Option (List Nat)
  | [] => some []
  | c1 :: c2 :: c3 :: c4 :: rest =>
    match b64_sextet_of_char c1, b64_sextet_of_char c2 with
    | some s1, some s2 =>
      if c3 == 61 then
        if c4 == 61 && rest.isEmpty then some [s1 * 4 + s2 / 16] else none
      else
        match b64_sextet_of_char c3 with
        | some s3 =>
          if c4 == 61 then
            if rest.isEmpty then some [s1 * 4 + s2 / 16, s2 % 16 * 16 + s3 / 4]
            else none
          else
            match b64_sextet_of_char c4, decode_chunk rest with
            | some s4, some tail =>
              some ((s1 * 4 + s2 / 16) :: (s2 % 16 * 16 + s3 / 4)
                      :: (s3 % 4 * 64 + s4) :: tail)
            | _, _ => none
        | none => none
    | _, _ => none
  | _ => none

/-! ## Message framing (`utils/protocol.py`) -/

/-- Big-endian value of a byte list (`struct.unpack("!I", header)`). -/
def be_bytes_to_nat (bs : List Nat) : Nat :=
  bs.foldl (fun acc b => acc * 256 + b) 0

/-- What `recv_json` hands back to its caller. `closed` is the Python `None`
(connection closed / short read); `empty_obj` is the `{}` returned for a
zero declared length; `packet_too_large` is the
`{"action": "__packet_too_large__", "length": n}` marker dict; `payload`
carries the raw bytes handed to `json.loads` (JSON parsing itself is outside
the claims). -/
inductive RecvResult where
  | closed
  | empty_obj
  | packet_too_large (length : Nat)
  | payload (bytes : List Nat)
deriving Repr, DecidableEq

/-- `recv_json` (`utils/protocol.py` lines 38-62) over the byte stream the
socket would deliver, together with the number of stream bytes it consumes:
read a 4-byte big-endian length; `0` is answered as the empty object and a
length over `100 * 1024 * 1024` as the too-large marker, both after reading
only the 4 header bytes. -/
def recv_json (stream : List Nat) : RecvResult × Nat :=
  if stream.length < 4 then (RecvResult.closed, 0)
  else
    let length := be_bytes_to_nat (stream.take 4)
    if length == 0 then (RecvResult.empty_obj, 4)
    else if length > 100 * 1024 * 1024 then
      (RecvResult.packet_too_large length, 4)
    else if (stream.length - 4) < length then (RecvResult.closed, 4)
    else (RecvResult.payload ((stream.drop 4).take length), 4 + length)

/-! ## Game manager uploads (`server/game_manager.py`) -/

/-- An `UploadSession` (`server/game_manager.py` lines 11-46); the open file
handle is represented by its `target_path` into the filesystem map. -/
structure UploadSession where
  upload_id : String
  developer : String
  name : String
  version : String
  description : String
  cli_entry : String
  gui_entry : String
  target_path : String
  finished : Bool
deriving Repr, DecidableEq

/-- The state a `GameManager` call touches: the active upload-session table,
the staging filesystem (path to byte contents), and the datastore tables the
EOF finalization writes. -/
structure GMState where
  uploads : List (String × UploadSession)
  fs : List (String × List Nat)
  games : List Game
  users : List User
deriving Repr, DecidableEq

/-- Append bytes to the file at `path` (the session's `self.file.write`). -/
def fs_append (fs : List (String × List Nat)) (path : String)
    (chunk : List Nat) : List (String × List Nat) :=
  match fs with
  | [] => [(path, chunk)]
  | (p, data) :: rest =>
    if p == path then (p, data ++ chunk) :: rest
    else (p, data) :: fs_append rest path chunk

/-- `UploadSession.write_chunk` (`server/game_manager.py` lines 37-46): a
no-op once `finished`; otherwise append the chunk and mark finished on EOF. -/
def UploadSession.write_chunk (sess : UploadSession)
    (fs : List (String × List Nat)) (chunk : List Nat) (eof : Bool) :
    UploadSession × List (String × List Nat) :=
  if sess.finished then (sess, fs)
  else ({ sess with finished := eof }, fs_append fs sess.target_path chunk)

/-- Replace the session stored under `upload_id`. -/
def update_upload (uploads : List (String × UploadSession)) (upload_id : String)
    (sess : UploadSession) : List (String × UploadSession) :=
  uploads.map (fun kv => if kv.1 == upload_id then (kv.1, sess) else kv)

/-- Remove the session stored under `upload_id` (`self.uploads.pop`). -/
def remove_upload (uploads : List (String × UploadSession))
    (upload_id : String) : List (String × UploadSession) :=
  uploads.filter (fun kv => kv.1 != upload_id)

/-- `GameManager.write_upload_chunk` (`server/game_manager.py` lines 97-119):
an unknown `upload_id` answers `"Invalid upload_id"` and touches nothing;
otherwise the chunk is appended, and on EOF the game is registered via
`add_or_update_game` (with `game_id=None`; the fresh uuid is `new_game_id`)
and the session is removed from the active table. Returns the Python return
value (`None` or the error string) with the state after the call. -/
def GameManager.write_upload_chunk (st : GMState) (upload_id : String)
    (chunk : List Nat) (eof : Bool) (new_game_id : String) :
    Option String × GMState :=
  match st.uploads.lookup upload_id with
  | none => (some "Invalid upload_id", st)
  | some sess =>
    let w := sess.write_chunk st.fs chunk eof
    let uploads := update_upload st.uploads upload_id w.1
    if eof then
      let fin := DataStore.add_or_update_game st.games st.users sess.developer
        sess.name sess.version sess.description sess.target_path
        sess.cli_entry sess.gui_entry none new_game_id
      (none, { uploads := remove_upload uploads upload_id, fs := w.2,
               games := fin.2.1, users := fin.2.2 })
    else
      (none, { st with uploads := uploads, fs := w.2 })

/-! ## Download streamer (`server/handlers.py` lines 328-362) -/

/-- One observable step of `_handle_download_game`, in the order the handler
performs it: the `increment_download` datastore mutation, a framed message
sent on the socket, or an error response. -/
inductive DlEvent where
  | incr (username game_id : String)
  | frame (data : Option (List Nat)) (eof : Bool)
  | err (message : String)
deriving Repr, DecidableEq

/-- The `while True` read-4096-and-send loop of `_handle_download_game`: one
`download_chunk` frame per 4096-byte slice (data base64-encoded by
`encode_chunk`), then the bare `eof` frame. -/
def download_chunk_frames (content : List Nat) : List DlEvent :=
  if content.isEmpty then [DlEvent.frame none true]
  else DlEvent.frame (some (encode_chunk (content.take 4096))) false
         :: download_chunk_frames (content.drop 4096)
termination_by content.length
decreasing_by
  simp only [List.length_drop]
  rename_i h
  simp only [List.isEmpty_iff] at h
  have : 0 < content.length := List.length_pos.mpr h
  omega

/-- `_handle_download_game` (`server/handlers.py` lines 328-362) as the
ordered trace of its observable steps plus the datastore tables after the
call. The filesystem is `fs : path → contents`; a missing `file_path` is the
`os.path.exists` failure. The increment is performed before any
`download_chunk` frame is handed to the socket. -/
def RequestHandlers.handle_download_game (games : List Game)
    (users : List User) (fs : List (String × List Nat))
    (username game_id : String) :
    List DlEvent × List Game × List User :=
  match DataStore.get_game games game_id with
  | none => ([DlEvent.err "Game not found"], games, users)
  | some game =>
    match fs.lookup game.file_path with
    | none => ([DlEvent.err "Game file missing on server"], games, users)
    | some content =>
      let t := DataStore.increment_download games users username game_id
      (DlEvent.incr username game_id :: download_chunk_frames content,
       t.1, t.2)

/-! ## Sequences of room operations (for the room invariants) -/

/-- One datastore room operation of the kinds the invariant claim ranges
over. `create` carries the uuid-generated room id as data. -/
inductive RoomOp where
  | create (room_id room_name host game_id : String) (max_players : Int)
      (game_port : Nat)
  | join (room_id username : String)
  | leave (room_id username : String)
  | ready (room_id username : String) (ready : Bool)
deriving Repr, DecidableEq

/-- Apply one room operation to the rooms table. -/
def apply_room_op (rooms : List Room) : RoomOp → List Room
  | RoomOp.create rid name host gid mp port =>
    DataStore.create_room rooms rid name host gid mp port
  | RoomOp.join rid u => (DataStore.join_room rooms rid u).2
  | RoomOp.leave rid u => DataStore.leave_room rooms rid u
  | RoomOp.ready rid u b => (DataStore.set_player_ready rooms rid u b).2

/-- Apply a sequence of room operations to the empty rooms table. -/
def apply_room_ops (ops : List RoomOp) : List Room :=
  ops.foldl apply_room_op []

/-! ## Concrete states used by witnesses and counterexamples -/

/-- Games table after alice uploads one game (fresh id `"g1"`). -/
def demo_games : List Game :=
  (DataStore.add_or_update_game [] [alice_rec] "alice" "g" "1" "d"
    "storage/u1.zip" "c.py" "s.py" none "g1").2.1

/-- A room in a running match with two players, both ready. -/
def playing_room : Room :=
  { room_id := "r1", room_name := "Room", host := "a", game_id := "g1",
    players := ["a", "b"], ready_players := ["a", "b"], max_players := 2,
    status := "playing", game_port := 10002 }

/-- A waiting room whose single player has not readied. -/
def lonely_room : Room :=
  { room_id := "r2", room_name := "Room", host := "a", game_id := "g1",
    players := ["a"], ready_players := [], max_players := 4,
    status := "waiting", game_port := 10003 }

/-- A waiting two-player room where only the host is ready. -/
def half_ready_room : Room :=
  { room_id := "r4", room_name := "Room", host := "a", game_id := "g1",
    players := ["a", "b"], ready_players := ["a"], max_players := 4,
    status := "waiting", game_port := 10005 }

/-- A waiting room that is already at its player limit. -/
def full_room : Room :=
  { room_id := "r3", room_name := "Room", host := "a", game_id := "g1",
    players := ["a", "b"], ready_players := [], max_players := 2,
    status := "waiting", game_port := 10004 }

/-- An in-flight upload session for `"u1"`. -/
def demo_sess : UploadSession :=
  { upload_id := "u1", developer := "alice", name := "g", version := "1",
    description := "d", cli_entry := "c.py", gui_entry := "s.py",
    target_path := "storage/u1.zip", finished := false }

/-- Game-manager state holding the single active upload `"u1"`. -/
def demo_gm : GMState :=
  { uploads := [("u1", demo_sess)], fs := [("storage/u1.zip", [])],
    games := [], users := [alice_rec] }

/-- The single record in `demo_games`. -/
def demo_game : Game :=
  { game_id := "g1", name := "g", developer := "alice", version := "1",
    description := "d", file_path := "storage/u1.zip", cli_entry := "c.py",
    gui_entry := "s.py", downloads := 0, reviews := [], max_players := none }

/-- The room left by `create_room "r1" host "a"; join b; set_ready b true`. -/
def made_room : Room :=
  { room_id := "r1", room_name := "n", host := "a", game_id := "g",
    players := ["a", "b"], ready_players := ["b"], max_players := 2,
    status := "waiting", game_port := 7 }

/-! # Theorems

One main theorem per claim, preceded by the helper lemmas it shares with the
rest of the development. -/

/-! ## Claim C1: register duplicates -/

/-- **C1** (code bug). The claim says a `register` whose username already
exists answers status `"error"`. The datastore layer correctly refuses the
duplicate and leaves the Users table unchanged, and a fresh register answers
`"ok"` and adds exactly the new user; but the duplicate *response* has status
`"ok"`: `_handle_register` tuple-unpacks the dict returned by
`AuthManager.register`, which binds `ok` to the key string `"status"`
(truthy), so the error branch is unreachable. Evaluated here at the concrete
failing input `register{username:"alice", password:"pw", role:"player"}`
sent twice (with the identity function standing in for the hash). -/
theorem register_duplicate_answers_ok :
    (RequestHandlers.handle_register id [alice_rec] "alice" "pw" "player").1.status = "ok"
    ∧ (RequestHandlers.handle_register id [alice_rec] "alice" "pw" "player").2 = [alice_rec]
    ∧ (DataStore.register_user id [alice_rec] "alice" "pw" "player") = (false, [alice_rec])
    ∧ (RequestHandlers.handle_register id [] "alice" "pw" "player").1.status = "ok"
    ∧ (RequestHandlers.handle_register id [] "alice" "pw" "player").2 = [alice_rec] := by
  decide

/-! ## Claim C8: framing limits -/

/-- **C8** (confirmed). For any delivered byte stream carrying a full 4-byte
header, a declared length of 0 makes `recv_json` answer the empty object, and
a declared length over 100 MiB makes it answer the protocol-error marker; in
both cases it consumes exactly the 4 header bytes, reading no payload. -/
theorem recv_json_zero_and_oversized (stream : List Nat)
    (h4 : 4 ≤ stream.length) :
    (be_bytes_to_nat (stream.take 4) = 0 →
      recv_json stream = (RecvResult.empty_obj, 4))
    ∧ (be_bytes_to_nat (stream.take 4) > 100 * 1024 * 1024 →
      recv_json stream = (RecvResult.packet_too_large
        (be_bytes_to_nat (stream.take 4)), 4)) := by
  have hlt : ¬ stream.length < 4 := by omega
  refine ⟨fun h => ?_, fun h => ?_⟩
  · simp [recv_json, hlt, h]
  · have h0 : ¬ be_bytes_to_nat (stream.take 4) = 0 := by omega
    simp [recv_json, hlt, h, h0]

/-- Witness for C8: the all-zero header yields the empty object, and the
all-ones header (length 4294967295 > 100 MiB) yields the too-large marker. -/
theorem recv_json_zero_and_oversized_witness :
    recv_json [0, 0, 0, 0] = (RecvResult.empty_obj, 4)
    ∧ recv_json [255, 255, 255, 255]
        = (RecvResult.packet_too_large 4294967295, 4) := by
  constructor
  · exact (recv_json_zero_and_oversized [0, 0, 0, 0] (by decide)).1 (by decide)
  · have h := (recv_json_zero_and_oversized [255, 255, 255, 255]
      (by decide)).2 (by decide)
    simpa using h

/-! ## Claim C10: upload session ends at EOF -/

/-- After `uploads.pop(upload_id)` the id no longer resolves. -/
theorem lookup_remove_upload (l : List (String × UploadSession))
    (upload_id : String) :
    (remove_upload l upload_id).lookup upload_id = none := by
  induction l with
  | nil => rfl
  | cons kv rest ih =>
    simp only [remove_upload, List.filter_cons] at ih ⊢
    by_cases h : kv.1 = upload_id
    · simp only [h, bne_self_eq_false]
      exact ih
    · have hb : (kv.1 != upload_id) = true := by simp [h]
      have hq : (upload_id == kv.1) = false := by
        simp only [beq_eq_false_iff_ne]
        exact fun e => h e.symm
      simp only [hb, if_true]
      rw [List.lookup]
      simp only [hq]
      exact ih

/-- **C10** (confirmed). A `write_upload_chunk` with `eof = true` on a live
session succeeds (returns no error) and removes `upload_id` from the active
upload table, so every subsequent `write_upload_chunk` naming the same
`upload_id` answers `"Invalid upload_id"` and leaves the whole state — the
staging filesystem included — untouched. -/
theorem write_upload_chunk_after_eof_invalid (st : GMState)
    (upload_id : String) (chunk : List Nat) (new_game_id : String)
    (sess : UploadSession)
    (h : st.uploads.lookup upload_id = some sess) :
    (GameManager.write_upload_chunk st upload_id chunk true new_game_id).1 = none
    ∧ (GameManager.write_upload_chunk st upload_id chunk true
        new_game_id).2.uploads.lookup upload_id = none
    ∧ ∀ (chunk2 : List Nat) (eof2 : Bool) (new_game_id2 : String),
        GameManager.write_upload_chunk
          (GameManager.write_upload_chunk st upload_id chunk true new_game_id).2
          upload_id chunk2 eof2 new_game_id2
        = (some "Invalid upload_id",
           (GameManager.write_upload_chunk st upload_id chunk true
             new_game_id).2) := by
  have key : (GameManager.write_upload_chunk st upload_id chunk true
        new_game_id).1 = none
      ∧ (GameManager.write_upload_chunk st upload_id chunk true
        new_game_id).2.uploads.lookup upload_id = none := by
    constructor
    · simp [GameManager.write_upload_chunk, h]
    · simp [GameManager.write_upload_chunk, h, lookup_remove_upload]
  refine ⟨key.1, key.2, ?_⟩
  intro chunk2 eof2 new_game_id2
  generalize hs : (GameManager.write_upload_chunk st upload_id chunk true
    new_game_id).2 = st1 at key ⊢
  obtain ⟨-, h1⟩ := key
  simp [GameManager.write_upload_chunk, h1]

/-- Witness for C10 at the concrete state `demo_gm` holding session `"u1"`. -/
theorem write_upload_chunk_after_eof_invalid_witness :
    GameManager.write_upload_chunk
      (GameManager.write_upload_chunk demo_gm "u1" [65, 66] true "g1").2
      "u1" [67] false "g2"
    = (some "Invalid upload_id",
       (GameManager.write_upload_chunk demo_gm "u1" [65, 66] true "g1").2) :=
  (write_upload_chunk_after_eof_invalid demo_gm "u1" [65, 66] "g1" demo_sess
    (by decide)).2.2 [67] false "g2"

/-! ## Claim C4: create_room versus oversized max_players -/

/-- **C4 counterexample**. The claim says a `create_room` naming an existing
game never fails on account of an oversized `max_players` and instead clamps
it. On the games table produced by the server's own upsert (alice's game
`"g1"`; the upsert records no `max_players`, so `game.get("max_players", 2)`
is 2), a request with `max_players = 5` is answered with an error and no room
is created. -/
theorem create_room_oversized_is_rejected :
    LobbyManager.create_room demo_games [] "bob" "g1" "Room" 5 10002 "r1"
      = (Except.error "This game supports at most 2 players", []) := by
  rfl

/-- **C4 amended** (corrected). For every `create_room` naming an existing
game: when the requested `max_players` exceeds the game's recorded
`max_players` (with default 2 when the record carries none — and the server's
own upsert never records one), the request is *rejected* with an error and
the rooms table is unchanged; otherwise the room is created with the
requested `max_players` taken as is (no clamping in either direction). -/
theorem create_room_rejects_rather_than_clamps (games : List Game)
    (rooms : List Room) (host game_id room_name new_room_id : String)
    (max_players : Int) (game_port : Nat) (g : Game)
    (hg : DataStore.get_game games game_id = some g) :
    (max_players > g.max_players.getD 2 →
      LobbyManager.create_room games rooms host game_id room_name max_players
          game_port new_room_id
        = (Except.error ("This game supports at most "
            ++ toString (g.max_players.getD 2) ++ " players"), rooms))
    ∧ (max_players ≤ g.max_players.getD 2 →
      LobbyManager.create_room games rooms host game_id room_name max_players
          game_port new_room_id
        = (Except.ok (new_room_id, game_port),
           rooms ++ [{ room_id := new_room_id, room_name := room_name,
                       host := host, game_id := game_id, players := [host],
                       ready_players := [], max_players := max_players,
                       status := "waiting", game_port := game_port }])) := by
  constructor
  · intro hmp
    simp [LobbyManager.create_room, hg, hmp]
  · intro hmp
    have hmp' : ¬ max_players > g.max_players.getD 2 := by omega
    simp [LobbyManager.create_room, hg, hmp', DataStore.create_room]

/-- Witness for the amended C4: the oversized request 5 > 2 is rejected, and
a request of 2 ≤ 2 creates the room carrying `max_players = 2`. -/
theorem create_room_rejects_rather_than_clamps_witness :
    (LobbyManager.create_room demo_games [] "bob" "g1" "Room" 5 10002 "r1"
      = (Except.error "This game supports at most 2 players", []))
    ∧ (LobbyManager.create_room demo_games [] "bob" "g1" "Room" 2 10002 "r1"
      = (Except.ok ("r1", 10002),
         [{ room_id := "r1", room_name := "Room", host := "bob",
            game_id := "g1", players := ["bob"], ready_players := [],
            max_players := 2, status := "waiting", game_port := 10002 }])) := by
  constructor
  · have h := (create_room_rejects_rather_than_clamps demo_games [] "bob" "g1"
      "Room" "r1" 5 10002 demo_game (by decide)).1 (by decide)
    simpa using h
  · have h := (create_room_rejects_rather_than_clamps demo_games [] "bob" "g1"
      "Room" "r1" 2 10002 demo_game (by decide)).2 (by decide)
    simpa using h

/-! ## Claim C2: end_game -/

/-- **C2** (code bug). The claim (and the spec's §4.5) say `end_game` by a
room member succeeds, clears `ready_players` and flips the room back to
`"waiting"`. The code cannot do this: the dispatcher's `elif` chain in
`RequestHandlers.handle` has no `end_game` branch at all, so the request
falls through to the unknown-action error; and `LobbyManager.end_game`
itself, after the membership check, calls
`self.datastore.reset_room_for_new_game(room_id)`, a method `DataStore`
does not define, raising `AttributeError` with the room untouched.
Evaluated at the concrete failing input: room `"r1"` in status `"playing"`
with players `["a","b"]`, caller `"a"`. -/
theorem end_game_is_unroutable_and_raises :
    RequestHandlers.route "end_game" "player" = Route.unknown "end_game"
    ∧ unknown_action_resp "end_game"
        = send_error "Unknown or unauthorized action: end_game"
    ∧ LobbyManager.end_game [playing_room] ["r1"] "r1" "a"
        = (PyOutcome.raises
            "AttributeError: 'DataStore' object has no attribute 'reset_room_for_new_game'",
           [playing_room], [])
    ∧ playing_room.status = "playing"
    ∧ playing_room.ready_players = ["a", "b"] := by
  refine ⟨by decide, rfl, ?_, rfl, rfl⟩
  rfl

/-! ## Claim C5: start_game preconditions and the all-ready check -/

/-- **C5** (confirmed). For a room in status `"waiting"` whose host calls
`start_game`: when the room has fewer than two players or the player set
differs from the ready set, the call answers an error and the rooms table —
hence the room's `"waiting"` status — is unchanged; and
`are_all_players_ready` answers `true` exactly when the room has at least two
players and `set(players) == set(ready_players)`. -/
theorem start_game_preconditions (games : List Game) (rooms : List Room)
    (room_id username : String) (launch_ok : Bool) (r : Room)
    (hr : DataStore.get_room rooms room_id = some r)
    (hw : r.status = "waiting") (hh : r.host = username) :
    ((r.players.length < 2 ∨ ¬ py_set_eq r.players r.ready_players = true) →
      (∃ msg, LobbyManager.start_game games rooms room_id username launch_ok
        = (Except.error msg, rooms)))
    ∧ (DataStore.are_all_players_ready rooms room_id = true ↔
        2 ≤ r.players.length ∧ py_set_eq r.players r.ready_players = true) := by
  have hready : DataStore.are_all_players_ready rooms room_id
      = (decide (r.players.length > 1) && py_set_eq r.players r.ready_players) := by
    simp [DataStore.are_all_players_ready, hr]
  constructor
  · intro hpre
    rcases hpre with hlt | hne
    · refine ⟨"Need at least 2 players to start", ?_⟩
      simp [LobbyManager.start_game, hr, hw, hh, hlt]
    · by_cases hlt : r.players.length < 2
      · refine ⟨"Need at least 2 players to start", ?_⟩
        simp [LobbyManager.start_game, hr, hw, hh, hlt]
      · refine ⟨"Not all players are ready. Waiting for: "
          ++ String.intercalate ", "
            (r.players.filter (fun p => !(r.ready_players.contains p))), ?_⟩
        have hnr : ¬ DataStore.are_all_players_ready rooms room_id = true := by
          rw [hready]
          simp only [Bool.and_eq_true, decide_eq_true_eq]
          exact fun hc => hne hc.2
        simp [LobbyManager.start_game, hr, hw, hh, hlt, hnr]
  · rw [hready]
    simp only [Bool.and_eq_true, decide_eq_true_eq]
    exact ⟨fun ⟨h1, h2⟩ => ⟨by omega, h2⟩, fun ⟨h1, h2⟩ => ⟨by omega, h2⟩⟩

/-- Witness for C5: host `"a"` calling `start_game` on waiting room `"r2"`
with a single player gets an error with the rooms table unchanged. -/
theorem start_game_preconditions_witness :
    ∃ msg, LobbyManager.start_game [] [lonely_room] "r2" "a" true
      = (Except.error msg, [lonely_room]) :=
  (start_game_preconditions [] [lonely_room] "r2" "a" true lonely_room
    (by decide) (by decide) (by decide)).1 (Or.inl (by decide))

/-! ## Claim C7: join_room idempotence and the full error -/


/-- The datastore `join_room` answers `True` with the table unchanged when
the first room matching `room_id` already lists the user. -/
theorem join_room_mem_noop (rooms : List Room) (room_id username : String)
    (r : Room) (h : DataStore.get_room rooms room_id = some r)
    (hc : username ∈ r.players) :
    DataStore.join_room rooms room_id username = (true, rooms) := by
  induction rooms with
  | nil => simp [DataStore.get_room] at h
  | cons r0 rest ih =>
    by_cases hm : (r0.room_id == room_id) = true
    · have hr0 : r0 = r := by
        have := h
        simp [DataStore.get_room, List.find?, hm] at this
        exact this
      subst hr0
      simp [DataStore.join_room, hm, hc]
    · have h' : DataStore.get_room rest room_id = some r := by
        simpa [DataStore.get_room, List.find?, hm] using h
      simp [DataStore.join_room, hm, ih h']

/-- After a datastore `join_room` that answered `True`, the first room
matching `room_id` in the resulting table lists the user. -/
theorem join_room_true_mem (rooms : List Room) (room_id username : String)
    (h : (DataStore.join_room rooms room_id username).1 = true) :
    ∃ r, DataStore.get_room (DataStore.join_room rooms room_id username).2
        room_id = some r
      ∧ username ∈ r.players := by
  induction rooms with
  | nil => simp [DataStore.join_room] at h
  | cons r0 rest ih =>
    by_cases hm : (r0.room_id == room_id) = true
    · by_cases hc : username ∈ r0.players
      · refine ⟨r0, ?_, hc⟩
        simp [DataStore.join_room, hm, hc, DataStore.get_room, List.find?]
      · by_cases hf : (r0.players.length : Int) ≥ r0.max_players
        · simp [DataStore.join_room, hm, hc, hf] at h
        · refine ⟨{ r0 with players := r0.players ++ [username] }, ?_, by simp⟩
          simp [DataStore.join_room, hm, hc, hf, DataStore.get_room, List.find?]
    · have h' : (DataStore.join_room rest room_id username).1 = true := by
        simpa [DataStore.join_room, hm] using h
      obtain ⟨r, hr, hmem⟩ := ih h'
      refine ⟨r, ?_, hmem⟩
      simpa [DataStore.join_room, hm, DataStore.get_room, List.find?] using hr

/-- The datastore `join_room` refuses with `False` and no change when the
first room matching `room_id` is at capacity and the user is not a member. -/
theorem join_room_full_refuses (rooms : List Room) (room_id username : String)
    (r : Room) (h : DataStore.get_room rooms room_id = some r)
    (hc : username ∉ r.players)
    (hf : (r.players.length : Int) ≥ r.max_players) :
    DataStore.join_room rooms room_id username = (false, rooms) := by
  induction rooms with
  | nil => simp [DataStore.get_room] at h
  | cons r0 rest ih =>
    by_cases hm : (r0.room_id == room_id) = true
    · have hr0 : r0 = r := by
        have := h
        simp [DataStore.get_room, List.find?, hm] at this
        exact this
      subst hr0
      simp [DataStore.join_room, hm, hc, hf]
    · have h' : DataStore.get_room rest room_id = some r := by
        simpa [DataStore.get_room, List.find?, hm] using h
      simp [DataStore.join_room, hm, ih h']

/-- **C7** (confirmed). A second `join_room` by a user whose first join
succeeded (so who is now listed in the room) succeeds again and leaves the
rooms table exactly as after the first join; and a `join_room` on a waiting
room whose players list is at `max_players` (by a non-member) is answered
with the `"Room is full"` error and an unchanged rooms table. -/
theorem join_room_idempotent_and_full (rooms : List Room)
    (room_id username : String) :
    ((DataStore.join_room rooms room_id username).1 = true →
      DataStore.join_room (DataStore.join_room rooms room_id username).2
          room_id username
        = (true, (DataStore.join_room rooms room_id username).2))
    ∧ (∀ r, DataStore.get_room rooms room_id = some r →
        r.status = "waiting" →
        username ∉ r.players →
        (r.players.length : Int) ≥ r.max_players →
        LobbyManager.join_room rooms room_id username
          = (Except.error "Room is full", rooms)) := by
  constructor
  · intro h
    obtain ⟨r, hr, hmem⟩ := join_room_true_mem rooms room_id username h
    exact join_room_mem_noop _ room_id username r hr hmem
  · intro r hr hw hc hf
    have hds := join_room_full_refuses rooms room_id username r hr hc hf
    simp [LobbyManager.join_room, hr, hw, hds]

/-- Witness for C7 on the two-player room `"r3"` at capacity: member `"a"`
rejoining is a no-op success, and non-member `"c"` gets `"Room is full"`. -/
theorem join_room_idempotent_and_full_witness :
    (DataStore.join_room (DataStore.join_room [full_room] "r3" "a").2 "r3" "a"
      = (true, (DataStore.join_room [full_room] "r3" "a").2))
    ∧ (LobbyManager.join_room [full_room] "r3" "c"
      = (Except.error "Room is full", [full_room])) :=
  ⟨(join_room_idempotent_and_full [full_room] "r3" "a").1 (by decide),
   (join_room_idempotent_and_full [full_room] "r3" "c").2 full_room
     (by decide) (by decide) (by decide) (by decide)⟩

/-! ## Claim C6: ownership is established before streaming -/

/-- `add_owned_game` leaves the (first) record of `username` owning
`game_id`, whenever such a record exists. -/
theorem add_owned_game_owns (users : List User) (username game_id : String)
    (hu : ∃ u ∈ users, u.username = username) :
    ∃ u ∈ add_owned_game users username game_id,
      u.username = username ∧ game_id ∈ u.owned_games := by
  induction users with
  | nil => simp at hu
  | cons u rest ih =>
    by_cases hm : (u.username == username) = true
    · by_cases ho : u.owned_games.contains game_id = true
      · refine ⟨u, ?_, by simpa using hm, by simpa using ho⟩
        have ho' : game_id ∈ u.owned_games := by simpa using ho
        simp [add_owned_game, hm, ho']
      · refine ⟨{ u with owned_games := u.owned_games ++ [game_id] }, ?_,
          by simpa using hm, by simp⟩
        have ho' : game_id ∉ u.owned_games := by simpa using ho
        simp [add_owned_game, hm, ho']
    · have hu' : ∃ v ∈ rest, v.username = username := by
        rcases hu with ⟨v, hv, hvn⟩
        rcases List.mem_cons.mp hv with rfl | hvr
        · exact absurd (by simpa using hvn) hm
        · exact ⟨v, hvr, hvn⟩
      obtain ⟨v, hv, hvn, hvo⟩ := ih hu'
      refine ⟨v, ?_, hvn, hvo⟩
      simp only [add_owned_game, hm, Bool.false_eq_true, if_false]
      exact List.mem_cons_of_mem _ hv

/-- **C6** (confirmed). When a logged-in player downloads an existing game
whose bundle file is present, the handler's observable trace starts with the
`increment_download` mutation, strictly before every `download_chunk` frame;
consequently the resulting users table — fixed before any frame reaches the
socket, hence regardless of where the connection drops in the stream — has
the game in that player's `owned_games`. -/
theorem download_increments_before_streaming (games : List Game)
    (users : List User) (fs : List (String × List Nat))
    (username game_id : String) (g : Game) (content : List Nat)
    (hg : DataStore.get_game games game_id = some g)
    (hf : fs.lookup g.file_path = some content)
    (hu : ∃ u ∈ users, u.username = username) :
    (RequestHandlers.handle_download_game games users fs username game_id).1
      = DlEvent.incr username game_id :: download_chunk_frames content
    ∧ ∃ u ∈ (RequestHandlers.handle_download_game games users fs username
          game_id).2.2,
        u.username = username ∧ game_id ∈ u.owned_games := by
  constructor
  · simp [RequestHandlers.handle_download_game, hg, hf]
  · have : (RequestHandlers.handle_download_game games users fs username
        game_id).2.2 = add_owned_game users username game_id := by
      simp [RequestHandlers.handle_download_game, hg, hf,
        DataStore.increment_download]
    rw [this]
    exact add_owned_game_owns users username game_id hu

/-- Witness for C6: alice downloads `"g1"` (bundle bytes `[65, 66]`); the
trace is the increment followed by one data frame and the EOF frame, and her
record owns `"g1"` afterwards. -/
theorem download_increments_before_streaming_witness :
    (RequestHandlers.handle_download_game demo_games [alice_rec]
        [("storage/u1.zip", [65, 66])] "alice" "g1").1
      = DlEvent.incr "alice" "g1"
          :: download_chunk_frames [65, 66]
    ∧ ∃ u ∈ (RequestHandlers.handle_download_game demo_games [alice_rec]
          [("storage/u1.zip", [65, 66])] "alice" "g1").2.2,
        u.username = "alice" ∧ "g1" ∈ u.owned_games :=
  download_increments_before_streaming demo_games [alice_rec]
    [("storage/u1.zip", [65, 66])] "alice" "g1" demo_game [65, 66]
    (by decide) (by decide) ⟨alice_rec, by decide, by decide⟩

/-! ## Claim C3: room invariants -/

/-- The per-room invariant that actually holds: unique players, unique ready
list, ready ⊆ players, and the player count bounded by `max 1 max_players`
(a room always holds its creator, so a `create_room` with `max_players < 1`
starts over the claimed bound). -/
def room_ok (r : Room) : Prop :=
  r.players.Nodup ∧ r.ready_players.Nodup
    ∧ (∀ x ∈ r.ready_players, x ∈ r.players)
    ∧ (r.players.length : Int) ≤ max 1 r.max_players

/-- Where a room in the table after `create_room` comes from. -/
theorem create_room_provenance (rooms : List Room)
    (rid name host gid : String) (mp : Int) (port : Nat) (r' : Room)
    (h : r' ∈ DataStore.create_room rooms rid name host gid mp port) :
    r' ∈ rooms
    ∨ r' = { room_id := rid, room_name := name, host := host, game_id := gid,
             players := [host], ready_players := [], max_players := mp,
             status := "waiting", game_port := port } := by
  simpa [DataStore.create_room] using h

/-- Where a room in the table after a datastore `join_room` comes from. -/
theorem join_room_provenance (rooms : List Room) (rid u : String) (r' : Room)
    (h : r' ∈ (DataStore.join_room rooms rid u).2) :
    r' ∈ rooms
    ∨ ∃ r ∈ rooms, (r.room_id == rid) = true ∧ u ∉ r.players
        ∧ (r.players.length : Int) < r.max_players
        ∧ r' = { r with players := r.players ++ [u] } := by
  induction rooms with
  | nil => simp [DataStore.join_room] at h
  | cons r0 rest ih =>
    by_cases hm : (r0.room_id == rid) = true
    · by_cases hc : u ∈ r0.players
      · left
        simpa [DataStore.join_room, hm, hc] using h
      · by_cases hf : (r0.players.length : Int) ≥ r0.max_players
        · left
          simpa [DataStore.join_room, hm, hc, hf] using h
        · have h' : r' = { r0 with players := r0.players ++ [u] } ∨ r' ∈ rest := by
            simpa [DataStore.join_room, hm, hc, hf] using h
          rcases h' with rfl | hr
          · exact Or.inr ⟨r0, List.mem_cons_self r0 rest, hm, hc, by omega, rfl⟩
          · exact Or.inl (List.mem_cons_of_mem _ hr)
    · have h' : r' = r0 ∨ r' ∈ (DataStore.join_room rest rid u).2 := by
        simpa [DataStore.join_room, hm] using h
      rcases h' with rfl | hr
      · exact Or.inl (List.mem_cons_self r' rest)
      · rcases ih hr with hin | ⟨r, hrm, hrest⟩
        · exact Or.inl (List.mem_cons_of_mem _ hin)
        · exact Or.inr ⟨r, List.mem_cons_of_mem _ hrm, hrest⟩

/-- Where a room in the table after a datastore `leave_room` comes from. -/
theorem leave_room_provenance (rooms : List Room) (rid u : String) (r' : Room)
    (h : r' ∈ DataStore.leave_room rooms rid u) :
    r' ∈ rooms
    ∨ ∃ r ∈ rooms, (r.room_id == rid) = true
        ∧ r' = { r with players := r.players.erase u,
                        ready_players := r.ready_players.erase u } := by
  induction rooms with
  | nil => simp [DataStore.leave_room] at h
  | cons r0 rest ih =>
    by_cases hm : (r0.room_id == rid) = true
    · by_cases he : (r0.players.erase u).isEmpty = true
      · left
        exact List.mem_cons_of_mem _ (by simpa [DataStore.leave_room, hm, he] using h)
      · have h' : r' = { r0 with
                         players := r0.players.erase u,
                         ready_players := r0.ready_players.erase u }
            ∨ r' ∈ rest := by
          simpa [DataStore.leave_room, hm, he] using h
        rcases h' with rfl | hr
        · exact Or.inr ⟨r0, List.mem_cons_self r0 rest, hm, rfl⟩
        · exact Or.inl (List.mem_cons_of_mem _ hr)
    · have h' : r' = r0 ∨ r' ∈ DataStore.leave_room rest rid u := by
        simpa [DataStore.leave_room, hm] using h
      rcases h' with rfl | hr
      · exact Or.inl (List.mem_cons_self r' rest)
      · rcases ih hr with hin | ⟨r, hrm, hrest⟩
        · exact Or.inl (List.mem_cons_of_mem _ hin)
        · exact Or.inr ⟨r, List.mem_cons_of_mem _ hrm, hrest⟩

/-- Where a room in the table after `set_player_ready` comes from. -/
theorem set_ready_provenance (rooms : List Room) (rid u : String) (b : Bool)
    (r' : Room)
    (h : r' ∈ (DataStore.set_player_ready rooms rid u b).2) :
    r' ∈ rooms
    ∨ ∃ r ∈ rooms, u ∈ r.players
        ∧ ((b = true ∧ u ∉ r.ready_players
              ∧ r' = { r with ready_players := r.ready_players ++ [u] })
           ∨ (b = false
              ∧ r' = { r with ready_players := r.ready_players.erase u })) := by
  induction rooms with
  | nil => simp [DataStore.set_player_ready] at h
  | cons r0 rest ih =>
    by_cases hm : (r0.room_id == rid) = true
    · by_cases hc : u ∈ r0.players
      · cases b with
        | true =>
          by_cases hrdy : u ∈ r0.ready_players
          · left
            have h' : r' = { r0 with ready_players := r0.ready_players } ∨ r' ∈ rest := by
              simpa [DataStore.set_player_ready, hm, hc, hrdy] using h
            rcases h' with rfl | hr
            · exact List.mem_cons_self _ rest
            · exact List.mem_cons_of_mem _ hr
          · have h' : r' = { r0 with ready_players := r0.ready_players ++ [u] }
                ∨ r' ∈ rest := by
              simpa [DataStore.set_player_ready, hm, hc, hrdy] using h
            rcases h' with rfl | hr
            · exact Or.inr ⟨r0, List.mem_cons_self r0 rest, hc,
                Or.inl ⟨rfl, hrdy, rfl⟩⟩
            · exact Or.inl (List.mem_cons_of_mem _ hr)
        | false =>
          have h' : r' = { r0 with ready_players := r0.ready_players.erase u }
              ∨ r' ∈ rest := by
            simpa [DataStore.set_player_ready, hm, hc] using h
          rcases h' with rfl | hr
          · exact Or.inr ⟨r0, List.mem_cons_self r0 rest, hc, Or.inr ⟨rfl, rfl⟩⟩
          · exact Or.inl (List.mem_cons_of_mem _ hr)
      · left
        simpa [DataStore.set_player_ready, hm, hc] using h
    · have h' : r' = r0 ∨ r' ∈ (DataStore.set_player_ready rest rid u b).2 := by
        simpa [DataStore.set_player_ready, hm] using h
      rcases h' with rfl | hr
      · exact Or.inl (List.mem_cons_self r' rest)
      · rcases ih hr with hin | ⟨r, hrm, hrest⟩
        · exact Or.inl (List.mem_cons_of_mem _ hin)
        · exact Or.inr ⟨r, List.mem_cons_of_mem _ hrm, hrest⟩

/-- Every room operation preserves the per-room invariant `room_ok`. -/
theorem apply_room_op_ok (rooms : List Room) (op : RoomOp)
    (h : ∀ r ∈ rooms, room_ok r) :
    ∀ r' ∈ apply_room_op rooms op, room_ok r' := by
  intro r' hr'
  cases op with
  | create rid name host gid mp port =>
    rcases create_room_provenance rooms rid name host gid mp port r' hr'
      with hin | rfl
    · exact h r' hin
    · refine ⟨by simp, by simp, by simp, ?_⟩
      simp only [List.length_singleton, Nat.cast_one]
      exact le_max_left (1 : Int) mp
  | join rid u =>
    rcases join_room_provenance rooms rid u r' hr'
      with hin | ⟨r, hrm, hmid, hnotin, hlt, rfl⟩
    · exact h r' hin
    · obtain ⟨hnd, hrnd, hsub, hlen⟩ := h r hrm
      refine ⟨?_, hrnd, ?_, ?_⟩
      · simp [List.nodup_append, hnd, hnotin]
      · intro x hx
        exact List.mem_append_left _ (hsub x hx)
      · simp only [List.length_append, List.length_singleton]
        push_cast
        omega
  | leave rid u =>
    rcases leave_room_provenance rooms rid u r' hr' with hin | ⟨r, hrm, hmid, rfl⟩
    · exact h r' hin
    · obtain ⟨hnd, hrnd, hsub, hlen⟩ := h r hrm
      refine ⟨hnd.erase u, hrnd.erase u, ?_, ?_⟩
      · intro x hx
        have hx' := hrnd.mem_erase_iff.mp hx
        exact (List.mem_erase_of_ne hx'.1).mpr (hsub x hx'.2)
      · have hsl : (r.players.erase u).length ≤ r.players.length :=
          (List.erase_sublist u r.players).length_le
      
        have hcast : ((r.players.erase u).length : Int) ≤ (r.players.length : Int) := by
          exact_mod_cast hsl
        simp only
        omega
  | ready rid u b =>
    rcases set_ready_provenance rooms rid u b r' hr'
      with hin | ⟨r, hrm, hup, hcase⟩
    · exact h r' hin
    · obtain ⟨hnd, hrnd, hsub, hlen⟩ := h r hrm
      rcases hcase with ⟨-, hnr, rfl⟩ | ⟨-, rfl⟩
      · refine ⟨hnd, ?_, ?_, hlen⟩
        · simp [List.nodup_append, hrnd, hnr]
        · intro x hx
          rcases List.mem_append.mp hx with hx | hx
          · exact hsub x hx
          · simp only [List.mem_singleton] at hx
            subst hx
            exact hup
      · exact ⟨hnd, hrnd.erase u,
          fun x hx => hsub x (List.mem_of_mem_erase hx), hlen⟩

/-- Every room operation other than a `leave_room` by the room's own host
keeps the host listed among the players. -/
theorem apply_room_op_host (rooms : List Room) (op : RoomOp) (r' : Room)
    (hmem : r' ∈ apply_room_op rooms op)
    (hIH : ∀ r ∈ rooms, r.room_id = r'.room_id → r.host = r'.host →
      r.host ∈ r.players)
    (hop : op ≠ RoomOp.leave r'.room_id r'.host) :
    r'.host ∈ r'.players := by
  cases op with
  | create rid name host gid mp port =>
    rcases create_room_provenance rooms rid name host gid mp port r' hmem
      with hin | rfl
    · exact hIH r' hin rfl rfl
    · simp
  | join rid u =>
    rcases join_room_provenance rooms rid u r' hmem
      with hin | ⟨r, hrm, hmid, hnotin, hlt, rfl⟩
    · exact hIH r' hin rfl rfl
    · exact List.mem_append_left _ (hIH r hrm rfl rfl)
  | leave rid u =>
    rcases leave_room_provenance rooms rid u r' hmem
      with hin | ⟨r, hrm, hmid, rfl⟩
    · exact hIH r' hin rfl rfl
    · have hostmem : r.host ∈ r.players := hIH r hrm rfl rfl
      have hne : r.host ≠ u := by
        intro he
        refine hop ?_
        have hid : r.room_id = rid := by simpa using hmid
        simp [hid, he]
      exact (List.mem_erase_of_ne hne).mpr hostmem
  | ready rid u b =>
    rcases set_ready_provenance rooms rid u b r' hmem
      with hin | ⟨r, hrm, hup, hcase⟩
    · exact hIH r' hin rfl rfl
    · rcases hcase with ⟨-, hnr, rfl⟩ | ⟨-, rfl⟩
      · exact hIH r hrm rfl rfl
      · exact hIH r hrm rfl rfl

/-- Folding any suffix of operations preserves `room_ok` everywhere and the
host-membership property guarded by the absence of a host-leave. -/
theorem apply_room_ops_fold (s : List RoomOp) :
    ∀ (p : List RoomOp) (rooms : List Room),
    (∀ r ∈ rooms, room_ok r) →
    (∀ r ∈ rooms, (∀ op ∈ p, op ≠ RoomOp.leave r.room_id r.host) →
      r.host ∈ r.players) →
    (∀ r ∈ s.foldl apply_room_op rooms, room_ok r)
    ∧ (∀ r ∈ s.foldl apply_room_op rooms,
        (∀ op ∈ p ++ s, op ≠ RoomOp.leave r.room_id r.host) →
        r.host ∈ r.players) := by
  induction s with
  | nil =>
    intro p rooms h hh
    refine ⟨h, ?_⟩
    intro r hr hno
    exact hh r hr (fun op hop => hno op (by simpa using hop))
  | cons op rest ih =>
    intro p rooms h hh
    have h1 : ∀ r ∈ apply_room_op rooms op, room_ok r := apply_room_op_ok rooms op h
    have h2 : ∀ r ∈ apply_room_op rooms op,
        (∀ o ∈ p ++ [op], o ≠ RoomOp.leave r.room_id r.host) →
        r.host ∈ r.players := by
      intro r hr hno
      refine apply_room_op_host rooms op r hr ?_ ?_
      · intro r0 hr0 hid hhost
        refine hh r0 hr0 ?_
        intro o ho hoe
        refine hno o (List.mem_append_left _ ho) ?_
        rw [hoe, hid, hhost]
      · exact hno op (List.mem_append_right _ (List.mem_singleton_self op))
    have hrec := ih (p ++ [op]) (apply_room_op rooms op) h1 h2
    rw [List.foldl_cons]
    refine ⟨hrec.1, ?_⟩
    intro r hr hno
    refine hrec.2 r hr ?_
    intro o ho
    refine hno o ?_
    simpa [List.append_assoc] using ho

/-- **C3 counterexample**. The claim fails as stated: a `create_room` with
`max_players = 0` (accepted end to end, since the handler's
`int(msg.get("max_players", 2))` is unconstrained and the lobby only rejects
values *above* the game limit) yields a room with `|players| = 1 > 0 =
max_players`; and after the host of a two-player room leaves, the room
survives with `host ∉ players` (no host handover in `leave_room`). -/
theorem room_invariants_counterexample :
    (∃ r ∈ apply_room_ops [RoomOp.create "r1" "n" "a" "g" 0 0],
       ¬ ((r.players.length : Int) ≤ r.max_players))
    ∧ (∃ r ∈ apply_room_ops
         [RoomOp.create "r2" "n" "a" "g" 2 0, RoomOp.join "r2" "b",
          RoomOp.leave "r2" "a"],
       r.host ∉ r.players) := by
  decide

/-- **C3 amended** (corrected). After any sequence of `create_room`,
`join_room`, `leave_room`, `set_ready` operations, every existing room has a
unique-element `players` list, `ready_players ⊆ players`, and
`|players| ≤ max 1 max_players` (so `≤ max_players` whenever the room was
created with `max_players ≥ 1`); and `host ∈ players` holds as long as the
host has not left that room (a host `leave_room` can break it for good). -/
theorem room_invariants_amended (ops : List RoomOp) (r : Room)
    (hr : r ∈ apply_room_ops ops) :
    r.players.Nodup
    ∧ (∀ x ∈ r.ready_players, x ∈ r.players)
    ∧ (r.players.length : Int) ≤ max 1 r.max_players
    ∧ ((∀ op ∈ ops, op ≠ RoomOp.leave r.room_id r.host) →
        r.host ∈ r.players) := by
  simp only [apply_room_ops] at hr
  obtain ⟨hok, hhost⟩ := apply_room_ops_fold ops [] [] (by simp) (by simp)
  have h1 := hok r hr
  have h2 := hhost r hr
  exact ⟨h1.1, h1.2.2.1, h1.2.2.2, fun hno => h2 (by simpa using hno)⟩

/-- Witness for the amended C3: the room left by
`create_room; join_room b; set_ready b` satisfies every conjunct. -/
theorem room_invariants_amended_witness :
    made_room.players.Nodup
    ∧ (∀ x ∈ made_room.ready_players, x ∈ made_room.players)
    ∧ (made_room.players.length : Int) ≤ max 1 made_room.max_players
    ∧ ((∀ op ∈ [RoomOp.create "r1" "n" "a" "g" 2 7, RoomOp.join "r1" "b",
          RoomOp.ready "r1" "b" true],
        op ≠ RoomOp.leave made_room.room_id made_room.host) →
        made_room.host ∈ made_room.players) :=
  room_invariants_amended
    [RoomOp.create "r1" "n" "a" "g" 2 7, RoomOp.join "r1" "b",
     RoomOp.ready "r1" "b" true] made_room (by decide)

/-! ## Claim C9: base64 round trip -/

/-- Decoding inverts the alphabet on every sextet. -/
theorem b64_sextet_round : ∀ s < 64,
    b64_sextet_of_char (b64_char_of_sextet s) = some s := by
  decide

/-- No alphabet character is the padding byte `'='` (61). -/
theorem b64_char_ne_pad : ∀ s < 64, b64_char_of_sextet s ≠ 61 := by
  decide

/-- Round trip, by strong induction on the length (three bytes at a time). -/
theorem b64_roundtrip_aux : ∀ (n : Nat) (bs : List Nat), bs.length ≤ n →
    (∀ b ∈ bs, b < 256) → decode_chunk (encode_chunk bs) = some bs := by
  intro n
  induction n with
  | zero =>
    intro bs hlen h
    have hbs : bs = [] := List.eq_nil_of_length_eq_zero (by omega)
    subst hbs
    rfl
  | succ n ih =>
    intro bs hlen h
    rcases bs with _ | ⟨a, _ | ⟨b, _ | ⟨c, rest⟩⟩⟩
    · rfl
    · have ha : a < 256 := h a (by simp)
      have h1 := b64_sextet_round (a / 4) (by omega)
      have h2 := b64_sextet_round (a % 4 * 16) (by omega)
      simp [encode_chunk, decode_chunk, h1, h2]
      omega
    · have ha : a < 256 := h a (by simp)
      have hb : b < 256 := h b (by simp)
      have h1 := b64_sextet_round (a / 4) (by omega)
      have h2 := b64_sextet_round (a % 4 * 16 + b / 16) (by omega)
      have h3 := b64_sextet_round (b % 16 * 4) (by omega)
      have hne3 : (b64_char_of_sextet (b % 16 * 4) == 61) = false :=
        beq_eq_false_iff_ne.mpr (b64_char_ne_pad (b % 16 * 4) (by omega))
      simp [encode_chunk, decode_chunk, h1, h2, h3, hne3]
      omega
    · have ha : a < 256 := h a (by simp)
      have hb : b < 256 := h b (by simp)
      have hc : c < 256 := h c (by simp)
      have h1 := b64_sextet_round (a / 4) (by omega)
      have h2 := b64_sextet_round (a % 4 * 16 + b / 16) (by omega)
      have h3 := b64_sextet_round (b % 16 * 4 + c / 64) (by omega)
      have h4 := b64_sextet_round (c % 64) (by omega)
      have hne3 : (b64_char_of_sextet (b % 16 * 4 + c / 64) == 61) = false :=
        beq_eq_false_iff_ne.mpr (b64_char_ne_pad (b % 16 * 4 + c / 64) (by omega))
      have hne4 : (b64_char_of_sextet (c % 64) == 61) = false :=
        beq_eq_false_iff_ne.mpr (b64_char_ne_pad (c % 64) (by omega))
      have hrest : decode_chunk (encode_chunk rest) = some rest := by
        refine ih rest ?_ ?_
        · simp at hlen
          omega
        · intro x hx
          exact h x (by simp [hx])
      simp [encode_chunk, decode_chunk, h1, h2, h3, h4, hne3, hne4, hrest]
      omega

/-- **C9** (confirmed). `decode_chunk (encode_chunk B) = B` for every byte
sequence `B` (bytes are values below 256): base64 encoding to the standard
alphabet with `=` padding and decoding back is the identity on bytes. -/
theorem decode_encode_chunk (bs : List Nat) (h : ∀ b ∈ bs, b < 256) :
    decode_chunk (encode_chunk bs) = some bs :=
  b64_roundtrip_aux bs.length bs le_rfl h

/-- Witness for C9 on the bytes of `"Hello"` (length 5 exercises both the
full-block and the one-byte padding path). -/
theorem decode_encode_chunk_witness :
    decode_chunk (encode_chunk [72, 101, 108, 108, 111])
      = some [72, 101, 108, 108, 111] :=
  decode_encode_chunk [72, 101, 108, 108, 111] (by decide)
